import Mathlib

/-!
Shallow embedding of the four Python modules of the softmarket-workflow
repository: `clientes.py`, `facturacion.py`, `productos.py`, `reportes.py`.

Modelling conventions:
* Python `float` amounts are modelled as exact rationals `ℚ`; Python's
  `round(x, 2)` (round-half-to-even at two decimals) is `round2` below.
  At every concrete amount appearing in the claims the binary-float value
  computed by the source is exactly the rational one, so the model agrees
  with the source there.
* Python `dict` repositories keyed by a field of the stored record are
  modelled as insertion-ordered lists of records; `dict[k] = v` is
  replace-in-place when the key is present, append otherwise.
* A raised exception is an `Except.error`; the error constructors follow
  the spec's taxonomy (`invalidRecord`, `duplicateKey`, `notFound`,
  `invalidState`), each corresponding to one distinct message of the
  source's `ClienteInvalido` / `ProductoInvalido` / `ValueError` /
  `KeyError` raises.
* `date.today()` is a parameter `hoy : Fecha` of the operations that
  consult it.
-/

/-- Calendar date as plain integers, standing for Python `datetime.date`. -/
structure Fecha where
  year : ℤ
  month : ℤ
  day : ℤ
deriving DecidableEq, Repr

/-- Round-half-to-even of a rational to an integer, the semantics of
Python's builtin `round` (on values exactly representable the float and
the rational agree). -/
def rne (q : ℚ) : ℤ :=
  if q - ⌊q⌋ < 1/2 then ⌊q⌋
  else if 1/2 < q - ⌊q⌋ then ⌊q⌋ + 1
  else if ⌊q⌋ % 2 = 0 then ⌊q⌋ else ⌊q⌋ + 1

/-- Python `round(q, 2)`: round-half-to-even at two decimal places. -/
def round2 (q : ℚ) : ℚ := (rne (q * 100) : ℚ) / 100

-- ========================================================================
-- facturacion.py
-- ========================================================================

namespace Facturacion

/-- Errors of the invoicing module, per the spec's taxonomy: the source
raises `ValueError` with distinct messages. -/
inductive FactErr where
  | invalidRecord
  | invalidState
deriving DecidableEq, Repr

/-- Invoice line item (`facturacion.Item`). -/
structure Item where
  sku : String
  nombre : String
  cantidad : ℤ
  precio_unitario : ℚ
deriving DecidableEq, Repr

/-- `Item.subtotal`: `round(self.cantidad * self.precio_unitario, 2)`. -/
def Item.subtotal (i : Item) : ℚ := round2 ((i.cantidad : ℚ) * i.precio_unitario)

/-- `DescuentoNulo.aplicar`: `round(monto, 2)`. -/
def DescuentoNulo.aplicar (monto : ℚ) : Except FactErr ℚ := .ok (round2 monto)

/-- `DescuentoPorcentaje` discount strategy. -/
structure DescuentoPorcentaje where
  porcentaje : ℚ
deriving DecidableEq, Repr

/-- `DescuentoPorcentaje.aplicar`: raises (`invalidState`) when the
percentage is outside `[0, 100]`, else `round(monto * (1 - porcentaje/100), 2)`. -/
def DescuentoPorcentaje.aplicar (d : DescuentoPorcentaje) (monto : ℚ) : Except FactErr ℚ :=
  if d.porcentaje < 0 ∨ 100 < d.porcentaje then .error .invalidState
  else .ok (round2 (monto * (1 - d.porcentaje / 100)))

/-- `DescuentoFijo` discount strategy. -/
structure DescuentoFijo where
  monto_fijo : ℚ
deriving DecidableEq, Repr

/-- `DescuentoFijo.aplicar`: raises (`invalidState`) when the fixed amount
is negative, else `round(max(0.0, monto - monto_fijo), 2)`. -/
def DescuentoFijo.aplicar (d : DescuentoFijo) (monto : ℚ) : Except FactErr ℚ :=
  if d.monto_fijo < 0 then .error .invalidState
  else .ok (round2 (max 0 (monto - d.monto_fijo)))

/-- Invoice (`facturacion.Factura`); the strategy reference retained by the
source is the `aplicar` argument of `calcular` here, and `fecha` is the
`hoy` parameter. -/
structure Factura where
  numero : String
  fecha : Fecha
  items : List Item
  subtotal : ℚ
  total_con_descuento : ℚ
deriving DecidableEq, Repr

/-- `FacturacionService.calcular`: raises (`invalidRecord`) on an empty item
list, computes `subtotal = round(sum(i.subtotal), 2)`, then applies the
injected discount strategy. -/
def FacturacionService.calcular (aplicar : ℚ → Except FactErr ℚ) (hoy : Fecha)
    (numero : String) (items : List Item) : Except FactErr Factura :=
  if items = [] then .error .invalidRecord
  else
    let subtotal := round2 ((items.map Item.subtotal).sum)
    match aplicar subtotal with
    | .error e => .error e
    | .ok total => .ok ⟨numero, hoy, items, subtotal, total⟩

end Facturacion

-- ========================================================================
-- clientes.py
-- ========================================================================

namespace Clientes

/-- Errors of the customer module, per the spec's taxonomy: the source
raises `ClienteInvalido` with distinct messages for field validation and
for the duplicate-email check. -/
inductive ClienteErr where
  | invalidRecord
  | duplicateKey
deriving DecidableEq, Repr

/-- Customer record (`clientes.Cliente`). -/
structure Cliente where
  id : String
  nombre_completo : String
  email : String
  fecha_nacimiento : Fecha
deriving DecidableEq, Repr

/-- `Cliente.edad`: `hoy.year - nacimiento.year - ((hoy.month, hoy.day) <
(nacimiento.month, nacimiento.day))`, with the Python bool counted as 0/1
and the tuple comparison lexicographic. -/
def Cliente.edad (hoy : Fecha) (c : Cliente) : ℤ :=
  hoy.year - c.fecha_nacimiento.year -
    (if hoy.month < c.fecha_nacimiento.month ∨
        (hoy.month = c.fecha_nacimiento.month ∧ hoy.day < c.fecha_nacimiento.day)
     then 1 else 0)

/-- Characters matched by the regex class `[^@]`. -/
def noAt (l : List Char) : Bool := l.all (fun ch => ch ≠ '@')

/-- Prefix match of the regex `[^@]+@[^@]+\.[^@]+` against a character
list, as `re.match` performs it: some decomposition
`local ++ "@" ++ dom ++ "." ++ tld-head ++ rest` exists with `local` and
`dom` non-empty and free of `@`, `tld-head` one character that is not `@`,
and `rest` arbitrary. Indices: `i` is the position of the `@`, `j` of the
`.`. -/
def emailMatch (l : List Char) : Bool :=
  (List.range l.length).any fun i =>
    (List.range l.length).any fun j =>
      decide (1 ≤ i) && decide (i + 2 ≤ j) && decide (j + 1 < l.length) &&
      decide (l.getD i ' ' = '@') && decide (l.getD j ' ' = '.') &&
      noAt (l.take i) && noAt ((l.drop (i + 1)).take (j - (i + 1))) &&
      decide (l.getD (j + 1) ' ' ≠ '@')

/-- `re.match(r"[^@]+@[^@]+\.[^@]+", email)` as a Boolean. -/
def emailOk (s : String) : Bool := emailMatch s.data

/-- Python `str.strip()` on a character list: whitespace removed from both
ends. -/
def strip (l : List Char) : List Char :=
  ((l.dropWhile Char.isWhitespace).reverse.dropWhile Char.isWhitespace).reverse

/-- `ValidadorCliente.validar`: empty trimmed name, failing email regex, or
age below 18 each raise `ClienteInvalido` (`invalidRecord`), in that order. -/
def ValidadorCliente.validar (hoy : Fecha) (c : Cliente) : Except ClienteErr Unit :=
  if strip c.nombre_completo.data = [] then .error .invalidRecord
  else if ¬ emailOk c.email then .error .invalidRecord
  else if c.edad hoy < 18 then .error .invalidRecord
  else .ok ()

/-- In-memory customer repository (`ClienteRepoMemoria`): the Python dict
keyed by `cliente.id`, as an insertion-ordered list of records. -/
abbrev ClienteRepoMemoria := List Cliente

/-- `ClienteRepoMemoria.agregar`: `self._clientes[cliente.id] = cliente` —
replace in place when the id is present, append otherwise; never raises. -/
def ClienteRepoMemoria.agregar (repo : ClienteRepoMemoria) (c : Cliente) : ClienteRepoMemoria :=
  if repo.any (fun q => q.id = c.id) then
    repo.map (fun q => if q.id = c.id then c else q)
  else repo ++ [c]

/-- `ClienteRepoMemoria.listar`: snapshot of the stored values in insertion
order. -/
def ClienteRepoMemoria.listar (repo : ClienteRepoMemoria) : List Cliente := repo

/-- `ClienteRepoMemoria.buscar_por_email`: first stored customer with the
given email, linear scan. -/
def ClienteRepoMemoria.buscar_por_email (repo : ClienteRepoMemoria) (email : String) :
    Option Cliente :=
  repo.find? (fun q => q.email = email)

/-- `ServicioClientes.registrar`: validate, then raise `ClienteInvalido`
(`duplicateKey`) when `buscar_por_email` finds the email, else `agregar`.
An `Except.error` result leaves the repository as it was. -/
def ServicioClientes.registrar (hoy : Fecha) (repo : ClienteRepoMemoria) (c : Cliente) :
    Except ClienteErr ClienteRepoMemoria :=
  match ValidadorCliente.validar hoy c with
  | .error e => .error e
  | .ok () =>
    if (repo.buscar_por_email c.email).isSome then .error .duplicateKey
    else .ok (repo.agregar c)

end Clientes

-- ========================================================================
-- productos.py
-- ========================================================================

namespace Productos

/-- Errors of the product module, per the spec's taxonomy: the source
raises `ValueError` (duplicate sku), `KeyError` (missing sku on update) and
`ProductoInvalido` with distinct messages. -/
inductive ProductoErr where
  | invalidRecord
  | duplicateKey
  | notFound
  | invalidState
deriving DecidableEq, Repr

/-- Product record (`productos.Producto`). -/
structure Producto where
  sku : String
  nombre : String
  stock : ℤ
  precio : ℚ
deriving DecidableEq, Repr

/-- `Producto.valor_en_inventario`: `round(stock * precio, 2)`. -/
def Producto.valor_en_inventario (p : Producto) : ℚ := round2 ((p.stock : ℚ) * p.precio)

/-- In-memory product repository (`ProductoRepoMem`): the Python dict keyed
by `p.sku`, as an insertion-ordered list of records. -/
abbrev ProductoRepoMem := List Producto

/-- `ProductoRepoMem.guardar`: raises `ValueError` (`duplicateKey`) when
the sku is already stored, else inserts. -/
def ProductoRepoMem.guardar (repo : ProductoRepoMem) (p : Producto) :
    Except ProductoErr ProductoRepoMem :=
  if repo.any (fun q => q.sku = p.sku) then .error .duplicateKey
  else .ok (repo ++ [p])

/-- `ProductoRepoMem.obtener`: `self._data.get(sku)`. -/
def ProductoRepoMem.obtener (repo : ProductoRepoMem) (sku : String) : Option Producto :=
  repo.find? (fun q => q.sku = sku)

/-- `ProductoRepoMem.listar`: snapshot of the stored values in insertion
order. -/
def ProductoRepoMem.listar (repo : ProductoRepoMem) : List Producto := repo

/-- `ProductoRepoMem.actualizar`: raises `KeyError` (`notFound`) when the
sku is absent, else replaces the stored record in place. -/
def ProductoRepoMem.actualizar (repo : ProductoRepoMem) (p : Producto) :
    Except ProductoErr ProductoRepoMem :=
  if repo.any (fun q => q.sku = p.sku) then
    .ok (repo.map (fun q => if q.sku = p.sku then p else q))
  else .error .notFound

/-- `ProductoService._validar`: sku and nombre at least 3 characters,
stock non-negative, precio positive; each failure raises `ProductoInvalido`
(`invalidRecord`). Python `len` on a string counts characters. -/
def ProductoService.validar (sku nombre : String) (stock : ℤ) (precio : ℚ) :
    Except ProductoErr Unit :=
  if sku.data.length < 3 then .error .invalidRecord
  else if nombre.data.length < 3 then .error .invalidRecord
  else if stock < 0 then .error .invalidRecord
  else if precio ≤ 0 then .error .invalidRecord
  else .ok ()

/-- `ProductoService.registrar`: validate then `guardar`; returns the new
repository and the stored record. -/
def ProductoService.registrar (repo : ProductoRepoMem) (sku nombre : String)
    (stock : ℤ) (precio : ℚ) : Except ProductoErr (ProductoRepoMem × Producto) := do
  ProductoService.validar sku nombre stock precio
  let p : Producto := ⟨sku, nombre, stock, precio⟩
  let r ← repo.guardar p
  .ok (r, p)

/-- `ProductoService.ajustar_stock`: raises `ProductoInvalido` (`notFound`)
when the sku is absent, builds a new record with `stock + delta`, raises
`ProductoInvalido` (`invalidState`) when that stock is negative, else
replaces via `actualizar` and returns the new record. -/
def ProductoService.ajustar_stock (repo : ProductoRepoMem) (sku : String) (delta : ℤ) :
    Except ProductoErr (ProductoRepoMem × Producto) :=
  match repo.obtener sku with
  | none => .error .notFound
  | some p =>
    let nuevo : Producto := ⟨p.sku, p.nombre, p.stock + delta, p.precio⟩
    if nuevo.stock < 0 then .error .invalidState
    else
      match repo.actualizar nuevo with
      | .error e => .error e
      | .ok r => .ok (r, nuevo)

end Productos

-- ========================================================================
-- reportes.py
-- ========================================================================

namespace Reportes

/-- Sale record (`reportes.Venta`). -/
structure Venta where
  id_venta : String
  cliente : String
  producto : String
  cantidad : ℤ
  precio_unitario : ℚ
  fecha : Fecha
deriving DecidableEq, Repr

/-- `Venta.total`: `cantidad * precio_unitario`, no rounding. -/
def Venta.total (v : Venta) : ℚ := (v.cantidad : ℚ) * v.precio_unitario

/-- In-memory sales log (`VentaRepoMem`): an append-only list. -/
abbrev VentaRepoMem := List Venta

/-- `VentaRepoMem.registrar`: `self._ventas.append(venta)`; never raises,
no duplicate check. -/
def VentaRepoMem.registrar (repo : VentaRepoMem) (v : Venta) : VentaRepoMem :=
  repo ++ [v]

/-- `VentaRepoMem.listar`: snapshot of the log in insertion order. -/
def VentaRepoMem.listar (repo : VentaRepoMem) : List Venta := repo

/-- `ReporteVentasService.total_general`: sum of `v.total` over the log. -/
def ReporteVentasService.total_general (repo : VentaRepoMem) : ℚ :=
  (repo.listar.map Venta.total).sum

/-- `ReporteVentasService.total_por_cliente`: sum over sales whose
`cliente` equals the argument exactly. -/
def ReporteVentasService.total_por_cliente (repo : VentaRepoMem) (cliente : String) : ℚ :=
  ((repo.listar.filter (fun v => v.cliente = cliente)).map Venta.total).sum

/-- `ReporteVentasService.total_por_producto`: sum over sales whose
`producto` equals the argument exactly. -/
def ReporteVentasService.total_por_producto (repo : VentaRepoMem) (producto : String) : ℚ :=
  ((repo.listar.filter (fun v => v.producto = producto)).map Venta.total).sum

end Reportes

-- ========================================================================
-- Theorems
-- ========================================================================

namespace Facturacion

/-- Item list of the claims about `FacturacionService.calcular`: quantity 2
at unit price 25.00, quantity 1 at 18.50, quantity 3 at 5.75. -/
def itemsDemo : List Item :=
  [⟨"A100", "Teclado", 2, 25⟩, ⟨"B200", "Mouse", 1, 18.5⟩, ⟨"C300", "Pad", 3, 5.75⟩]

/-- C1 (counterexample): on the item list {2 × 25.00, 1 × 18.50, 3 × 5.75}
the invoice subtotal computed by `FacturacionService.calcular` is 85.75,
which differs from the 94.75 the claim states. -/
theorem calcular_items_demo_subtotal_ne :
    (FacturacionService.calcular DescuentoNulo.aplicar ⟨2026, 10, 12⟩ "F-0001"
        itemsDemo).map Factura.subtotal = .ok 85.75 ∧ (85.75 : ℚ) ≠ 94.75 := by
  have hne : itemsDemo ≠ [] := by simp [itemsDemo]
  constructor
  · simp only [FacturacionService.calcular, if_neg hne, DescuentoNulo.aplicar, Except.map]
    norm_num [itemsDemo, Item.subtotal, round2, rne]
  · norm_num

/-- C1 (amended): on the item list {2 × 25.00, 1 × 18.50, 3 × 5.75} the
invoice returned by `FacturacionService.calcular` has subtotal equal to the
2-decimal-rounded sum of the per-item subtotals
`round(cantidad * precio_unitario, 2)`, and that value is 85.75. -/
theorem calcular_items_demo_subtotal :
    (FacturacionService.calcular DescuentoNulo.aplicar ⟨2026, 10, 12⟩ "F-0001"
        itemsDemo).map Factura.subtotal = .ok (round2 ((itemsDemo.map Item.subtotal).sum)) ∧
      round2 ((itemsDemo.map Item.subtotal).sum) = 85.75 := by
  have hne : itemsDemo ≠ [] := by simp [itemsDemo]
  constructor
  · simp only [FacturacionService.calcular, if_neg hne, DescuentoNulo.aplicar, Except.map]
  · norm_num [Item.subtotal, itemsDemo, round2, rne]

/-- C2: `DescuentoPorcentaje 10` applied to 94.75 yields 85.28 (the exact
value 85.275 rounds half-to-even up), and `DescuentoFijo 8.0` applied to
94.75 yields 86.75. -/
theorem descuento_diez_y_fijo_ocho :
    DescuentoPorcentaje.aplicar ⟨10⟩ 94.75 = .ok 85.28 ∧
      DescuentoFijo.aplicar ⟨8⟩ 94.75 = .ok 86.75 := by
  constructor
  · norm_num [DescuentoPorcentaje.aplicar, round2, rne]
  · norm_num [DescuentoFijo.aplicar, round2, rne]

/-- C5: a `DescuentoPorcentaje` whose percentage lies outside `[0, 100]`
raises `invalidState` on `aplicar`, for every amount: no discounted amount
is returned. -/
theorem porcentaje_fuera_de_rango (pct monto : ℚ) (h : pct < 0 ∨ 100 < pct) :
    DescuentoPorcentaje.aplicar ⟨pct⟩ monto = .error .invalidState := by
  simp only [DescuentoPorcentaje.aplicar, if_pos h]

/-- C5 at 150 percent on amount 94.75: `aplicar` raises `invalidState`. -/
theorem porcentaje_fuera_de_rango_witness :
    DescuentoPorcentaje.aplicar ⟨150⟩ 94.75 = .error .invalidState :=
  porcentaje_fuera_de_rango 150 94.75 (Or.inr (by norm_num))

end Facturacion

namespace Reportes

/-- Sales log of the reporting claim: Carlos/Teclado 2 × 25.5,
Santiago/Mouse 3 × 12.0, Carlos/Monitor 1 × 80.0. -/
def ventasDemo : List Venta :=
  [⟨"V-001", "Carlos", "Teclado", 2, 25.5, ⟨2025, 10, 14⟩⟩,
   ⟨"V-002", "Santiago", "Mouse", 3, 12, ⟨2025, 10, 14⟩⟩,
   ⟨"V-003", "Carlos", "Monitor", 1, 80, ⟨2025, 10, 14⟩⟩]

/-- C7: on the three-sale log, `total_general` is 167.0,
`total_por_cliente "Carlos"` is 131.0 and `total_por_producto "Mouse"` is
36.0, each a plain sum of `cantidad * precio_unitario` with no rounding. -/
theorem totales_demo :
    ReporteVentasService.total_general ventasDemo = 167 ∧
      ReporteVentasService.total_por_cliente ventasDemo "Carlos" = 131 ∧
      ReporteVentasService.total_por_producto ventasDemo "Mouse" = 36 := by
  refine ⟨?_, ?_, ?_⟩ <;>
    norm_num [ReporteVentasService.total_general, ReporteVentasService.total_por_cliente,
      ReporteVentasService.total_por_producto, VentaRepoMem.listar, Venta.total,
      ventasDemo, List.filter_cons,
      (by decide : "Santiago" ≠ "Carlos"), (by decide : "Teclado" ≠ "Mouse"),
      (by decide : "Monitor" ≠ "Mouse")]

end Reportes

namespace Clientes

/-- Helper: replacing in place every stored customer whose id matches `c`
(the dict-update branch of `agregar`) makes the first customer found under
`c`'s email be `c`, provided no stored customer had that email and some
stored customer has `c`'s id. -/
theorem find?_email_map_replace (c : Cliente) :
    ∀ repo : List Cliente,
      repo.find? (fun q => q.email = c.email) = none →
      repo.any (fun q => q.id = c.id) = true →
      (repo.map (fun q => if q.id = c.id then c else q)).find?
          (fun q => q.email = c.email) = some c := by
  intro repo
  induction repo with
  | nil => intro _ h; simp at h
  | cons a l ih =>
    intro hnone hany
    rw [List.find?_eq_none] at hnone
    by_cases hid : a.id = c.id
    · simp only [List.map_cons, if_pos hid]
      exact List.find?_cons_of_pos _ (by simp)
    · simp only [List.map_cons, if_neg hid]
      rw [List.find?_cons_of_neg _ (by simpa using hnone a (by simp))]
      refine ih ?_ ?_
      · rw [List.find?_eq_none]
        intro q hq
        exact hnone q (List.mem_cons_of_mem a hq)
      · simpa [hid] using hany

/-- Helper: after `agregar c` on a repository storing no customer with
`c`'s email, `buscar_por_email` on that email finds `c`. -/
theorem buscar_agregar (repo : ClienteRepoMemoria) (c : Cliente)
    (h : repo.buscar_por_email c.email = none) :
    (repo.agregar c).buscar_por_email c.email = some c := by
  unfold ClienteRepoMemoria.agregar
  by_cases hany : repo.any (fun q => q.id = c.id)
  · rw [if_pos hany]
    exact find?_email_map_replace c repo h hany
  · rw [if_neg hany]
    unfold ClienteRepoMemoria.buscar_por_email at *
    rw [List.find?_append, h]
    simp

/-- C3: registering a customer that passes field validation while the
repository already stores a customer with the same email raises
`duplicateKey`; the error result carries no new repository state, so the
stored customers are unchanged. -/
theorem registrar_email_duplicado (hoy : Fecha) (repo : ClienteRepoMemoria) (c : Cliente)
    (hval : ValidadorCliente.validar hoy c = .ok ())
    (hdup : (repo.buscar_por_email c.email).isSome = true) :
    ServicioClientes.registrar hoy repo c = .error .duplicateKey := by
  simp only [ServicioClientes.registrar, hval, hdup, if_true]

/-- C3 on a concrete state: with "ana@example.com" already stored,
registering a second valid customer with that email raises `duplicateKey`. -/
theorem registrar_email_duplicado_witness :
    ServicioClientes.registrar ⟨2026, 10, 12⟩
        [⟨"1", "Ana Diaz", "ana@example.com", ⟨2000, 1, 1⟩⟩]
        ⟨"2", "Juan Perez", "ana@example.com", ⟨1990, 5, 5⟩⟩ = .error .duplicateKey :=
  registrar_email_duplicado _ _ _ (by rfl) (by rfl)

/-- C6: a customer younger than 18 (calendar-aware year/month/day
comparison against `hoy`) is rejected by `registrar` with `invalidRecord`
and no state is produced; a customer aged at least 18 with a non-empty
stripped name, an email accepted by the regex, and an email not yet stored
is registered, and `buscar_por_email` then returns that customer. -/
theorem registrar_mayoria_de_edad (hoy : Fecha) (repo : ClienteRepoMemoria) (c : Cliente) :
    (c.edad hoy < 18 → ServicioClientes.registrar hoy repo c = .error .invalidRecord) ∧
    (18 ≤ c.edad hoy → strip c.nombre_completo.data ≠ [] → emailOk c.email = true →
      repo.buscar_por_email c.email = none →
      ∃ r, ServicioClientes.registrar hoy repo c = .ok r ∧
        r.buscar_por_email c.email = some c) := by
  constructor
  · intro hage
    unfold ServicioClientes.registrar ValidadorCliente.validar
    by_cases h1 : strip c.nombre_completo.data = []
    · rw [if_pos h1]
    · rw [if_neg h1]
      by_cases h2 : emailOk c.email
      · rw [if_neg (by simp [h2]), if_pos hage]
      · rw [if_pos (by simpa using h2)]
  · intro hage hname hemail hnone
    refine ⟨repo.agregar c, ?_, buscar_agregar repo c hnone⟩
    unfold ServicioClientes.registrar ValidadorCliente.validar
    rw [if_neg hname, if_neg (by simp [hemail]), if_neg (not_lt.mpr hage), hnone]
    simp

/-- C6 on concrete states: a 16-year-old is rejected with `invalidRecord`;
a 33-year-old with valid name and email registers into the empty
repository and is then found by email. -/
theorem registrar_mayoria_de_edad_witness :
    ServicioClientes.registrar ⟨2026, 10, 12⟩ []
        ⟨"3", "Nina Paz", "nina@example.com", ⟨2009, 12, 1⟩⟩ = .error .invalidRecord ∧
    ∃ r, ServicioClientes.registrar ⟨2026, 10, 12⟩ []
          ⟨"1", "Juan Perez", "juan@example.com", ⟨1993, 3, 10⟩⟩ = .ok r ∧
        r.buscar_por_email "juan@example.com" =
          some ⟨"1", "Juan Perez", "juan@example.com", ⟨1993, 3, 10⟩⟩ :=
  ⟨(registrar_mayoria_de_edad ⟨2026, 10, 12⟩ []
      ⟨"3", "Nina Paz", "nina@example.com", ⟨2009, 12, 1⟩⟩).1 (by decide),
   (registrar_mayoria_de_edad ⟨2026, 10, 12⟩ []
      ⟨"1", "Juan Perez", "juan@example.com", ⟨1993, 3, 10⟩⟩).2
     (by decide) (by decide) (by decide) (by rfl)⟩

/-- C8 (counterexample): the email "a@b.c@d" contains two at-signs, so it
is not of the exact shape local@domain.tld the claim requires, yet
`registrar` accepts it: `re.match` only anchors the regex at the start of
the string. -/
theorem registrar_acepta_email_con_sufijo :
    ServicioClientes.registrar ⟨2026, 1, 1⟩ []
        ⟨"9", "Mal Formato", "a@b.c@d", ⟨1990, 1, 1⟩⟩ =
      .ok [⟨"9", "Mal Formato", "a@b.c@d", ⟨1990, 1, 1⟩⟩] ∧
    ("a@b.c@d".data.filter (fun ch => ch = '@')).length = 2 := by
  constructor
  · rfl
  · decide

/-- C8 (amended): every customer accepted by `registrar` has an email some
PREFIX of which is of the shape local@domain.tld (non-empty at-sign-free
local part, at-sign, non-empty at-sign-free part, dot, one more character
that is no at-sign), arbitrary characters may follow; a customer whose
email has no such prefix is rejected with `invalidRecord`. -/
theorem registrar_email_prefijo_regex (hoy : Fecha) (repo : ClienteRepoMemoria) (c : Cliente) :
    (emailOk c.email = false → ServicioClientes.registrar hoy repo c = .error .invalidRecord) ∧
    (∀ r, ServicioClientes.registrar hoy repo c = .ok r → emailOk c.email = true) := by
  constructor
  · intro hbad
    unfold ServicioClientes.registrar ValidadorCliente.validar
    by_cases h1 : strip c.nombre_completo.data = []
    · rw [if_pos h1]
    · rw [if_neg h1, if_pos (by simp [hbad])]
  · intro r hr
    cases hval : ValidadorCliente.validar hoy c with
    | error e =>
      unfold ServicioClientes.registrar at hr
      rw [hval] at hr
      exact absurd hr (by simp)
    | ok u =>
      cases u
      unfold ValidadorCliente.validar at hval
      by_cases h1 : strip c.nombre_completo.data = []
      · rw [if_pos h1] at hval
        exact absurd hval (by simp)
      · rw [if_neg h1] at hval
        by_cases h2 : emailOk c.email
        · exact h2
        · rw [if_pos (by simpa using h2)] at hval
          exact absurd hval (by simp)

/-- C8 (amended) on concrete inputs: "sin-arroba.com" has no matching
prefix and is rejected; the accepted registration of "juan@example.com"
implies the prefix match holds. -/
theorem registrar_email_prefijo_regex_witness :
    ServicioClientes.registrar ⟨2026, 1, 1⟩ []
        ⟨"7", "Sin Arroba", "sin-arroba.com", ⟨1990, 1, 1⟩⟩ = .error .invalidRecord ∧
    emailOk "juan@example.com" = true :=
  ⟨(registrar_email_prefijo_regex ⟨2026, 1, 1⟩ []
      ⟨"7", "Sin Arroba", "sin-arroba.com", ⟨1990, 1, 1⟩⟩).1 (by decide),
   (registrar_email_prefijo_regex ⟨2026, 1, 1⟩ []
      ⟨"1", "Juan Perez", "juan@example.com", ⟨1993, 3, 10⟩⟩).2
     [⟨"1", "Juan Perez", "juan@example.com", ⟨1993, 3, 10⟩⟩] (by rfl)⟩

end Clientes

namespace Productos

/-- Helper: the in-place replacement performed by `actualizar` makes the
first record found under `nuevo`'s own sku be `nuevo`, provided some
stored record carries that sku. -/
theorem find?_sku_map_replace (s : String) (nuevo : Producto) (hs : nuevo.sku = s) :
    ∀ l : List Producto, (l.find? (fun q => q.sku = s)).isSome = true →
      (l.map (fun q => if q.sku = nuevo.sku then nuevo else q)).find?
          (fun q => q.sku = s) = some nuevo := by
  intro l
  induction l with
  | nil => simp
  | cons a t ih =>
    intro hsome
    by_cases ha : a.sku = s
    · simp only [List.map_cons, if_pos (hs ▸ ha)]
      exact List.find?_cons_of_pos _ (by simp [hs])
    · simp only [List.map_cons, if_neg (hs ▸ ha)]
      rw [List.find?_cons_of_neg _ (by simpa using ha)]
      apply ih
      rwa [List.find?_cons_of_neg _ (by simpa using ha)] at hsome

/-- Helper: the in-place replacement performed by `actualizar` leaves every
lookup under a sku other than `nuevo`'s unchanged. -/
theorem find?_sku_map_other (s s' : String) (nuevo : Producto) (hs : nuevo.sku = s)
    (hne : s' ≠ s) :
    ∀ l : List Producto,
      (l.map (fun q => if q.sku = nuevo.sku then nuevo else q)).find?
          (fun q => q.sku = s') = l.find? (fun q => q.sku = s') := by
  intro l
  induction l with
  | nil => simp
  | cons a t ih =>
    by_cases ha : a.sku = nuevo.sku
    · simp only [List.map_cons, if_pos ha]
      rw [List.find?_cons_of_neg _ (by simp [hs]; exact fun h => hne h.symm),
        List.find?_cons_of_neg _ (by simp [ha, hs]; exact fun h => hne h.symm)]
      exact ih
    · simp only [List.map_cons, if_neg ha]
      by_cases ha' : a.sku = s'
      · rw [List.find?_cons_of_pos _ (by simp [ha']), List.find?_cons_of_pos _ (by simp [ha'])]
      · rw [List.find?_cons_of_neg _ (by simp [ha']), List.find?_cons_of_neg _ (by simp [ha'])]
        exact ih

/-- Helper: the in-place replacement performed by `actualizar` preserves
the stored sku sequence. -/
theorem map_sku_replace (nuevo : Producto) :
    ∀ l : List Producto,
      (l.map (fun q => if q.sku = nuevo.sku then nuevo else q)).map Producto.sku =
        l.map Producto.sku := by
  intro l
  induction l with
  | nil => rfl
  | cons a t ih =>
    by_cases ha : a.sku = nuevo.sku
    · simp [ha, ih]
    · simp [ha, ih]

/-- Helper: when the sku is stored and the adjusted stock stays
non-negative, `ajustar_stock` returns the in-place-updated repository and
the record rebuilt with stock `p.stock + delta`. -/
theorem ajustar_stock_eq (repo : ProductoRepoMem) (s : String) (delta : ℤ) (p : Producto)
    (hp : repo.obtener s = some p) (hpos : 0 ≤ p.stock + delta) :
    ProductoService.ajustar_stock repo s delta =
      .ok (repo.map (fun q =>
            if q.sku = p.sku then ⟨p.sku, p.nombre, p.stock + delta, p.precio⟩ else q),
          ⟨p.sku, p.nombre, p.stock + delta, p.precio⟩) := by
  have hsku : p.sku = s := by simpa using List.find?_some hp
  have hmem : p ∈ repo := List.mem_of_find?_eq_some hp
  have hany : repo.any (fun q => q.sku = p.sku) = true :=
    List.any_eq_true.mpr ⟨p, hmem, by simp⟩
  simp only [ProductoService.ajustar_stock, hp, ProductoRepoMem.actualizar]
  rw [if_neg (not_lt.mpr hpos), if_pos hany]

/-- C4: `ajustar_stock` raises `notFound` when the sku is absent; raises
`invalidState` when the stored stock plus delta is negative (an error
result carries no new state, so the stored record is unchanged); otherwise
returns a repository in which the record under that sku is replaced by one
with stock `p.stock + delta`, together with that record. -/
theorem ajustar_stock_casos (repo : ProductoRepoMem) (s : String) (delta : ℤ) :
    (repo.obtener s = none →
      ProductoService.ajustar_stock repo s delta = .error .notFound) ∧
    (∀ p, repo.obtener s = some p → p.stock + delta < 0 →
      ProductoService.ajustar_stock repo s delta = .error .invalidState) ∧
    (∀ p, repo.obtener s = some p → 0 ≤ p.stock + delta →
      ∃ r, ProductoService.ajustar_stock repo s delta =
          .ok (r, ⟨p.sku, p.nombre, p.stock + delta, p.precio⟩) ∧
        r.obtener s = some ⟨p.sku, p.nombre, p.stock + delta, p.precio⟩) := by
  refine ⟨?_, ?_, ?_⟩
  · intro h
    simp only [ProductoService.ajustar_stock, h]
  · intro p hp hneg
    simp only [ProductoService.ajustar_stock, hp]
    rw [if_pos hneg]
  · intro p hp hpos
    have hsku : p.sku = s := by simpa using List.find?_some hp
    refine ⟨_, ajustar_stock_eq repo s delta p hp hpos, ?_⟩
    unfold ProductoRepoMem.obtener
    exact find?_sku_map_replace s ⟨p.sku, p.nombre, p.stock + delta, p.precio⟩ hsku repo
      (by unfold ProductoRepoMem.obtener at hp; rw [hp]; rfl)

/-- C4 on concrete states: adjusting an absent sku raises `notFound`;
stock 10 with delta -20 raises `invalidState`; stock 10 with delta +5
yields a stored and returned stock of 15. -/
theorem ajustar_stock_casos_witness :
    ProductoService.ajustar_stock ([] : ProductoRepoMem) "P-404" 1 = .error .notFound ∧
    ProductoService.ajustar_stock [⟨"P-001", "Teclado", 10, 25.5⟩] "P-001" (-20) =
      .error .invalidState ∧
    ∃ r, ProductoService.ajustar_stock [⟨"P-001", "Teclado", 10, 25.5⟩] "P-001" 5 =
        .ok (r, ⟨"P-001", "Teclado", 15, 25.5⟩) ∧
      r.obtener "P-001" = some ⟨"P-001", "Teclado", 15, 25.5⟩ :=
  ⟨(ajustar_stock_casos [] "P-404" 1).1 (by rfl),
   (ajustar_stock_casos [⟨"P-001", "Teclado", 10, 25.5⟩] "P-001" (-20)).2.1
     ⟨"P-001", "Teclado", 10, 25.5⟩ (by rfl) (by decide),
   (ajustar_stock_casos [⟨"P-001", "Teclado", 10, 25.5⟩] "P-001" 5).2.2
     ⟨"P-001", "Teclado", 10, 25.5⟩ (by rfl) (by decide)⟩

/-- C10: a stock adjustment with a stored sku and a non-negative resulting
stock changes only the record stored under that sku and of it only the
stock field: sku, nombre and precio are carried over, lookups under every
other sku are unchanged, and the stored sku sequence is unchanged. -/
theorem ajustar_stock_marco (repo : ProductoRepoMem) (s : String) (delta : ℤ) (p : Producto)
    (hp : repo.obtener s = some p) (hpos : 0 ≤ p.stock + delta) :
    ∃ r nuevo, ProductoService.ajustar_stock repo s delta = .ok (r, nuevo) ∧
      nuevo.sku = p.sku ∧ nuevo.nombre = p.nombre ∧ nuevo.precio = p.precio ∧
      nuevo.stock = p.stock + delta ∧
      r.obtener s = some nuevo ∧
      (∀ s', s' ≠ s → r.obtener s' = repo.obtener s') ∧
      r.map Producto.sku = repo.map Producto.sku := by
  have hsku : p.sku = s := by simpa using List.find?_some hp
  refine ⟨_, _, ajustar_stock_eq repo s delta p hp hpos, rfl, rfl, rfl, rfl, ?_, ?_, ?_⟩
  · unfold ProductoRepoMem.obtener
    exact find?_sku_map_replace s ⟨p.sku, p.nombre, p.stock + delta, p.precio⟩ hsku repo
      (by unfold ProductoRepoMem.obtener at hp; rw [hp]; rfl)
  · intro s' hs'
    unfold ProductoRepoMem.obtener
    exact find?_sku_map_other s s' ⟨p.sku, p.nombre, p.stock + delta, p.precio⟩ hsku hs' repo
  · exact map_sku_replace ⟨p.sku, p.nombre, p.stock + delta, p.precio⟩ repo

/-- C10 on a concrete two-product state: adjusting "P-001" by +5 keeps its
sku, nombre and precio, sets stock 15, leaves "P-002" untouched and keeps
the sku sequence. -/
theorem ajustar_stock_marco_witness :
    ∃ r nuevo, ProductoService.ajustar_stock
        [⟨"P-001", "Teclado", 10, 25.5⟩, ⟨"P-002", "Mouse", 15, 12⟩] "P-001" 5 =
        .ok (r, nuevo) ∧
      nuevo.sku = "P-001" ∧ nuevo.nombre = "Teclado" ∧ nuevo.precio = 25.5 ∧
      nuevo.stock = 15 ∧
      r.obtener "P-001" = some nuevo ∧
      (∀ s', s' ≠ "P-001" →
        r.obtener s' =
          ProductoRepoMem.obtener
            [⟨"P-001", "Teclado", 10, 25.5⟩, ⟨"P-002", "Mouse", 15, 12⟩] s') ∧
      r.map Producto.sku =
        List.map Producto.sku
          [⟨"P-001", "Teclado", 10, 25.5⟩, ⟨"P-002", "Mouse", 15, 12⟩] :=
  ajustar_stock_marco [⟨"P-001", "Teclado", 10, 25.5⟩, ⟨"P-002", "Mouse", 15, 12⟩]
    "P-001" 5 ⟨"P-001", "Teclado", 10, 25.5⟩ (by rfl) (by decide)

end Productos

/-- C9: `ProductoRepoMem.guardar` raises `duplicateKey` on an already
stored sku (the error result carries no new state, so the stored data is
unchanged), while the customer and sales repositories check nothing at
this layer: `agregar` with an already stored id is total and replaces the
previously stored customer under that id (new customer present, old one
gone, count unchanged), and `VentaRepoMem.registrar` always appends. -/
theorem repos_politica_duplicados :
    (∀ (repo : Productos.ProductoRepoMem) (p : Productos.Producto),
      repo.any (fun q => q.sku = p.sku) = true →
      repo.guardar p = .error .duplicateKey) ∧
    (∀ (repo : Clientes.ClienteRepoMemoria) (c c' : Clientes.Cliente),
      c' ∈ repo → c'.id = c.id →
      c ∈ repo.agregar c ∧ (c' ≠ c → c' ∉ repo.agregar c) ∧
        (repo.agregar c).length = repo.length) ∧
    (∀ (repo : Reportes.VentaRepoMem) (v : Reportes.Venta),
      repo.registrar v = repo ++ [v]) := by
  refine ⟨?_, ?_, ?_⟩
  · intro repo p h
    unfold Productos.ProductoRepoMem.guardar
    rw [if_pos h]
  · intro repo c c' hmem hid
    have hany : repo.any (fun q => q.id = c.id) = true :=
      List.any_eq_true.mpr ⟨c', hmem, by simp [hid]⟩
    unfold Clientes.ClienteRepoMemoria.agregar
    rw [if_pos hany]
    refine ⟨List.mem_map.mpr ⟨c', hmem, by simp [hid]⟩, ?_, by simp⟩
    intro hne hmem'
    obtain ⟨a, ha, hfa⟩ := List.mem_map.mp hmem'
    by_cases h : a.id = c.id
    · rw [if_pos h] at hfa
      exact hne hfa.symm
    · rw [if_neg h] at hfa
      exact h (hfa ▸ hid)
  · intro repo v
    rfl

/-- C9 on concrete states: storing a second product under sku "P-001"
raises `duplicateKey`; `agregar` with the already stored id "1" replaces
the stored customer (the new record is present, the old one is gone, one
record remains); the sales log appends without any check. -/
theorem repos_politica_duplicados_witness :
    Productos.ProductoRepoMem.guardar [⟨"P-001", "Teclado", 10, 25.5⟩]
        ⟨"P-001", "Teclado Pro", 5, 30⟩ = .error .duplicateKey ∧
    (⟨"1", "Ana Dos", "ana2@example.com", ⟨2001, 2, 2⟩⟩ : Clientes.Cliente) ∈
      Clientes.ClienteRepoMemoria.agregar
        [⟨"1", "Ana Uno", "ana@example.com", ⟨2000, 1, 1⟩⟩]
        ⟨"1", "Ana Dos", "ana2@example.com", ⟨2001, 2, 2⟩⟩ ∧
    (⟨"1", "Ana Uno", "ana@example.com", ⟨2000, 1, 1⟩⟩ : Clientes.Cliente) ∉
      Clientes.ClienteRepoMemoria.agregar
        [⟨"1", "Ana Uno", "ana@example.com", ⟨2000, 1, 1⟩⟩]
        ⟨"1", "Ana Dos", "ana2@example.com", ⟨2001, 2, 2⟩⟩ ∧
    (Clientes.ClienteRepoMemoria.agregar
        [⟨"1", "Ana Uno", "ana@example.com", ⟨2000, 1, 1⟩⟩]
        ⟨"1", "Ana Dos", "ana2@example.com", ⟨2001, 2, 2⟩⟩).length = 1 ∧
    Reportes.VentaRepoMem.registrar
        [⟨"V-001", "Carlos", "Teclado", 2, 25.5, ⟨2025, 10, 14⟩⟩]
        ⟨"V-001", "Carlos", "Teclado", 2, 25.5, ⟨2025, 10, 14⟩⟩ =
      [⟨"V-001", "Carlos", "Teclado", 2, 25.5, ⟨2025, 10, 14⟩⟩,
       ⟨"V-001", "Carlos", "Teclado", 2, 25.5, ⟨2025, 10, 14⟩⟩] := by
  have h := repos_politica_duplicados.2.1
    [⟨"1", "Ana Uno", "ana@example.com", ⟨2000, 1, 1⟩⟩]
    ⟨"1", "Ana Dos", "ana2@example.com", ⟨2001, 2, 2⟩⟩
    ⟨"1", "Ana Uno", "ana@example.com", ⟨2000, 1, 1⟩⟩ (by simp) (by rfl)
  exact ⟨repos_politica_duplicados.1 _ _ (by rfl), h.1, h.2.1 (by decide), h.2.2,
    repos_politica_duplicados.2.2 _ _⟩
